import Mathlib

/-!
# PhishGuard extension — verification of the detection pipeline

Shallow embedding of the core detection pipeline of the PhishGuard browser
extension (source: `src/background.js`, popup manager in `src/unnamed/part_001`).
Pure functions of the JavaScript source are translated into executable Lean
definitions; the stateful scan-session map is modelled by explicit state
passing; fallible operations return `Option`/`Except`.

Modelling conventions, stated once:
* JavaScript strings are Lean `String`s (lists of `Char`); `toLowerCase` is
  mapped over `Char.toLower`, which agrees with JavaScript on ASCII, the only
  alphabet occurring in the watch-lists and scheme lists of the source.
* JavaScript numbers are modelled as `Int`. JSON number literals with a
  fractional part or an exponent, and the NaN results of JavaScript `ToNumber`
  coercion on non-numeric values, are floating-point territory outside this
  integer model; the places where they could arise are marked on the
  individual definitions.
* Network and page I/O are oracles: functions passed in as parameters.
-/

namespace PhishGuard

/-! ## JSON values and the response parser's helpers

`background.js` calls `JSON.parse` on the brace-delimited slice of the model
reply.  `Json` is the value domain of that call, with numbers restricted to
integers (see the header note). -/

inductive Json where
  | null : Json
  | bool (b : Bool) : Json
  | num (n : Int) : Json
  | str (s : String) : Json
  | arr (elems : List Json) : Json
  | obj (fields : List (String × Json)) : Json

/-- The `{` character, written via its code point. -/
def obrace : Char := Char.ofNat 123

/-- The `}` character, written via its code point. -/
def cbrace : Char := Char.ofNat 125

/-- JSON insignificant whitespace (space, tab, newline, carriage return);
`Char.isWhitespace` recognises exactly these four characters. -/
def skipWs : List Char → List Char
  | [] => []
  | c :: cs => if c.isWhitespace then skipWs cs else c :: cs

/-- Decimal value of a digit run. -/
def digitsVal (ds : List Char) : Nat :=
  ds.foldl (fun a c => a * 10 + (c.toNat - 48)) 0

/-- Hex value of one hex digit (0 for non-hex input, which callers exclude). -/
def hexDigitVal (c : Char) : Nat :=
  if c.isDigit then c.toNat - 48
  else if 'a' ≤ c ∧ c ≤ 'f' then c.toNat - 87
  else if 'A' ≤ c ∧ c ≤ 'F' then c.toNat - 55
  else 0

def isHexDigit (c : Char) : Bool :=
  c.isDigit || ('a' ≤ c && c ≤ 'f') || ('A' ≤ c && c ≤ 'F')

/-- Parse the body of a JSON string literal (the opening quote already
consumed), returning the decoded characters and the remaining input.
Handles the JSON escapes; `\uXXXX` goes through `Char.ofNat` (surrogate
halves fall to the default character, a corner no claim exercises). -/
def parseStrChars : List Char → Option (List Char × List Char)
  | [] => none
  | '"' :: rest => some ([], rest)
  | '\\' :: '"' :: rest => (parseStrChars rest).map (fun p => ('"' :: p.1, p.2))
  | '\\' :: '\\' :: rest => (parseStrChars rest).map (fun p => ('\\' :: p.1, p.2))
  | '\\' :: '/' :: rest => (parseStrChars rest).map (fun p => ('/' :: p.1, p.2))
  | '\\' :: 'n' :: rest => (parseStrChars rest).map (fun p => ('\n' :: p.1, p.2))
  | '\\' :: 't' :: rest => (parseStrChars rest).map (fun p => ('\t' :: p.1, p.2))
  | '\\' :: 'r' :: rest => (parseStrChars rest).map (fun p => ('\r' :: p.1, p.2))
  | '\\' :: 'b' :: rest => (parseStrChars rest).map (fun p => (Char.ofNat 8 :: p.1, p.2))
  | '\\' :: 'f' :: rest => (parseStrChars rest).map (fun p => (Char.ofNat 12 :: p.1, p.2))
  | '\\' :: 'u' :: a :: b :: c :: d :: rest =>
      if isHexDigit a && isHexDigit b && isHexDigit c && isHexDigit d then
        (parseStrChars rest).map (fun p =>
          (Char.ofNat (((hexDigitVal a * 16 + hexDigitVal b) * 16 + hexDigitVal c) * 16
              + hexDigitVal d) :: p.1, p.2))
      else none
  | '\\' :: _ => none
  | c :: rest => (parseStrChars rest).map (fun p => (c :: p.1, p.2))

/-- Parse a JSON number.  Integer literals only: a fractional part or an
exponent is outside the integer model (header note) and rejected. -/
def parseNum (cs : List Char) : Option (Json × List Char) :=
  let neg := cs.head? == some '-'
  let cs1 := if neg then cs.tail else cs
  let ds := cs1.takeWhile Char.isDigit
  let rest := cs1.dropWhile Char.isDigit
  if ds.isEmpty then none
  else if ds.length > 1 && ds.head? == some '0' then none
  else if rest.head? == some '.' || rest.head? == some 'e' || rest.head? == some 'E' then none
  else
    let v : Int := (digitsVal ds : Int)
    some (.num (if neg then -v else v), rest)

/-- Parse the items of a non-empty JSON array: `p` parses one value, `fuel`
bounds the number of items (callers pass the input length, enough because
every item is followed by a separator character). -/
def parseArrItems (p : List Char → Option (Json × List Char)) :
    Nat → List Char → Option (List Json × List Char)
  | 0, _ => none
  | fuel + 1, cs =>
    match p (skipWs cs) with
    | none => none
    | some (v, rest) =>
      let rest := skipWs rest
      if rest.head? == some ',' then
        (parseArrItems p fuel rest.tail).map (fun q => (v :: q.1, q.2))
      else if rest.head? == some ']' then
        some ([v], rest.tail)
      else none

/-- Parse the members of a non-empty JSON object, as `parseArrItems`. -/
def parseObjItems (p : List Char → Option (Json × List Char)) :
    Nat → List Char → Option (List (String × Json) × List Char)
  | 0, _ => none
  | fuel + 1, cs =>
    match skipWs cs with
    | '"' :: cs1 =>
      match parseStrChars cs1 with
      | none => none
      | some (key, cs2) =>
        match skipWs cs2 with
        | ':' :: cs3 =>
          match p (skipWs cs3) with
          | none => none
          | some (v, cs4) =>
            let cs5 := skipWs cs4
            if cs5.head? == some ',' then
              (parseObjItems p fuel cs5.tail).map
                (fun q => ((String.mk key, v) :: q.1, q.2))
            else if cs5.head? == some cbrace then
              some ([(String.mk key, v)], cs5.tail)
            else none
        | _ => none
    | _ => none

/-- Parse one JSON value.  `fuel` bounds the bracket-nesting depth; the
top-level entry point passes the input length plus one, which always
suffices because each nesting level consumes an opening bracket. -/
def parseVal : Nat → List Char → Option (Json × List Char)
  | 0, _ => none
  | fuel + 1, cs =>
    match skipWs cs with
    | [] => none
    | c :: cs1 =>
      if c == obrace then
        let cs2 := skipWs cs1
        if cs2.head? == some cbrace then some (.obj [], cs2.tail)
        else
          match parseObjItems (parseVal fuel) (cs1.length + 1) cs1 with
          | some (fs, r) => some (.obj fs, r)
          | none => none
      else if c == '[' then
        let cs2 := skipWs cs1
        if cs2.head? == some ']' then some (.arr [], cs2.tail)
        else
          match parseArrItems (parseVal fuel) (cs1.length + 1) cs1 with
          | some (vs, r) => some (.arr vs, r)
          | none => none
      else if c == '"' then
        match parseStrChars cs1 with
        | some (s, r) => some (.str (String.mk s), r)
        | none => none
      else
        match c :: cs1 with
        | 'n' :: 'u' :: 'l' :: 'l' :: r => some (.null, r)
        | 't' :: 'r' :: 'u' :: 'e' :: r => some (.bool true, r)
        | 'f' :: 'a' :: 'l' :: 's' :: 'e' :: r => some (.bool false, r)
        | cs2 => parseNum cs2

/-- Source `JSON.parse`: the whole input must be one JSON value surrounded by at
most whitespace, otherwise the call throws — modelled as `none`. -/
def jsonParse (s : String) : Option Json :=
  match parseVal (s.data.length + 1) s.data with
  | some (v, rest) => if (skipWs rest).isEmpty then some v else none
  | none => none

/-! ## String helpers used by the source -/

/-- JavaScript `String.prototype.toLowerCase`, ASCII-faithful
(`Char.toLower`); the watch-lists and schemes of the source are ASCII. -/
def strToLower (s : String) : String := String.mk (s.data.map Char.toLower)

/-- Contiguous-sublist test on character lists. -/
def listHasInfix (sub cs : List Char) : Bool :=
  match cs with
  | [] => sub.isEmpty
  | _ :: rest => sub.isPrefixOf cs || listHasInfix sub rest

/-- JavaScript `String.prototype.includes`. -/
def containsSub (s sub : String) : Bool := listHasInfix sub.data s.data

/-- JavaScript `String.prototype.startsWith`. -/
def startsWithStr (s p : String) : Bool := p.data.isPrefixOf s.data

/-- JavaScript `String.prototype.trim` (both ends; the source applies it to
model replies).  `Char.isWhitespace` covers the whitespace that occurs in
generated text. -/
def trimStr (s : String) : String :=
  String.mk (((s.data.dropWhile Char.isWhitespace).reverse.dropWhile
      Char.isWhitespace).reverse)

/-! ## Response cleaning and JSON extraction (`parseGeminiResponse`) -/

/-- The seven-character code fence opener of the source's regex. -/
def fenceJson : List Char := "```json".data

/-- The three-character code fence of the source's regex. -/
def fence : List Char := "```".data

/-- Source `responseText.replace(/```json|```/g, '')` — the global regex scans left
to right, at each position trying the alternative ```json before ```.
`fuel` only makes the recursion structural; every step consumes at least
one character, so `fuel = length` (what `stripFences` passes) is exact. -/
def stripFencesAux : Nat → List Char → List Char
  | 0, cs => cs
  | _ + 1, [] => []
  | fuel + 1, c :: cs =>
    if fenceJson.isPrefixOf (c :: cs) then stripFencesAux fuel ((c :: cs).drop 7)
    else if fence.isPrefixOf (c :: cs) then stripFencesAux fuel ((c :: cs).drop 3)
    else c :: stripFencesAux fuel cs

def stripFences (cs : List Char) : List Char := stripFencesAux cs.length cs

/-- The cleaning step of `parseGeminiResponse` (background.js line 572):
strip code fences, then trim. -/
def cleanResponse (s : String) : String := trimStr (String.mk (stripFences s.data))

/-- Index of the last `}` in the input, if any. -/
def lastCloseIdx (cs : List Char) : Option Nat :=
  match cs.reverse.findIdx? (fun c => c == cbrace) with
  | some k => some (cs.length - 1 - k)
  | none => none

/-- Source `cleanedResponse.match(/\x7b[\s\S]*\x7d/)` (background.js line 574): the
greedy regex matches from the first `{` to the last `}` provided the last
`}` comes after the first `{`; otherwise there is no match. -/
def jsonSlice (s : String) : Option String :=
  let cs := s.data
  match cs.findIdx? (fun c => c == obrace), lastCloseIdx cs with
  | some i, some j =>
      if i < j then some (String.mk ((cs.drop i).take (j - i + 1))) else none
  | _, _ => none

/-! ## ScanResult and the parser/fallback pair -/

/-- The result object built by `parseGeminiResponse` / `fallbackAnalysis`.
Compared with the source object: `timestamp` (`Date.now()`, real time) is
outside the model and omitted; `modelDisplayName` is a pure rendering of
`modelUsed` and omitted; the success path of the source has no `fallback`
key, and a missing key is falsy in every use, so it is modelled as `false`;
`modelUsed` is `Option` so that the spec's "absent" is expressible, though
both source paths set it.  `legitimacyScore` is `Option Int`: `none` stands
for the NaN that JavaScript produces when a non-numeric score value flows
through `Math.max` (header note). -/
structure ScanResult where
  legitimacyScore : Option Int
  reasoning : List Json
  url : String
  fallback : Bool
  modelUsed : Option String

/-- JavaScript truthiness on JSON values. -/
def jsTruthy : Json → Bool
  | .null => false
  | .bool b => b
  | .num n => !(n == 0)
  | .str s => !(s == "")
  | .arr _ => true
  | .obj _ => true

/-- Property lookup on a parsed JSON object (`parsed.legitimacyScore`);
`JSON.parse` keeps the last of duplicate keys. -/
def jlookup (j : Json) (key : String) : Option Json :=
  match j with
  | .obj fields => (fields.reverse.find? (fun f => f.1 == key)).map (·.2)
  | _ => none

/-- Source `Math.min(Math.max(parsed.legitimacyScore || 50, 0), 100)`
(background.js line 581).  A falsy field value — absent, `null`, `false`,
`0`, `""` — is replaced by 50 before clamping; `true` coerces to 1 under
`Math.max`; the remaining non-numeric truthy values coerce through
JavaScript `ToNumber`, generally to NaN, which is outside the integer model
(`none`). -/
def scoreOfJson (v : Option Json) : Option Int :=
  let orDefault : Json :=
    match v with
    | some j => if jsTruthy j then j else .num 50
    | none => .num 50
  match orDefault with
  | .num n => some (min (max n 0) 100)
  | .bool true => some (min (max 1 0) 100)
  | _ => none

/-- Source `fallbackAnalysis(url, responseText)` (background.js lines 598-620):
case-insensitive lexical scan of the raw reply; risk vocabulary scores 25,
else trust vocabulary scores 65, else 50.  `this.currentModel` is the first
explicit argument. -/
def fallbackAnalysis (currentModel url responseText : String) : ScanResult :=
  if containsSub (strToLower responseText) "phishing"
      || containsSub (strToLower responseText) "suspicious"
      || containsSub (strToLower responseText) "malicious" then
    { legitimacyScore := some 25
      reasoning := [.str "Phishing indicators detected in content analysis"]
      url := url
      fallback := true
      modelUsed := some currentModel }
  else if containsSub (strToLower responseText) "legitimate"
      || containsSub (strToLower responseText) "safe"
      || containsSub (strToLower responseText) "trusted" then
    { legitimacyScore := some 65
      reasoning := [.str "Content appears legitimate based on analysis"]
      url := url
      fallback := true
      modelUsed := some currentModel }
  else
    { legitimacyScore := some 50
      reasoning := [.str "Automated analysis based on response patterns"]
      url := url
      fallback := true
      modelUsed := some currentModel }

/-- The structured parse attempted inside the `try` of
`parseGeminiResponse`: locate the brace slice of the cleaned reply and
`JSON.parse` it.  `none` covers both failure modes the source recovers
from — no regex match, and a throwing `JSON.parse`. -/
def tryStructured (responseText : String) : Option Json :=
  (jsonSlice (cleanResponse responseText)).bind jsonParse

/-- Source `parseGeminiResponse(responseText, url)` (background.js lines 570-595),
with `this.currentModel` as first explicit argument.  Total: every failure
of the structured parse is caught and routed to `fallbackAnalysis`. -/
def parseGeminiResponse (currentModel responseText url : String) : ScanResult :=
  match tryStructured responseText with
  | none => fallbackAnalysis currentModel url responseText
  | some parsed =>
      { legitimacyScore := scoreOfJson (jlookup parsed "legitimacyScore")
        reasoning :=
          match jlookup parsed "reasoning" with
          | some (.arr xs) => xs
          | _ => [.str "Analysis completed"]
        url := url
        fallback := false
        modelUsed := some currentModel }

/-! ## Model tier chain (`GEMINI_CONFIG`, `getNextFallbackModel`,
`analyzeWithGemini`) -/

/-- Source `GEMINI_CONFIG.models` — key/identifier pairs, in declaration order. -/
def GEMINI_models : List (String × String) :=
  [("pro", "gemini-2.5-pro"),
   ("flash", "gemini-2.5-flash"),
   ("flashLite", "gemini-2.5-flash-lite")]

/-- Source `GEMINI_CONFIG.fallbackOrder`. -/
def fallbackOrder : List String := ["pro", "flash", "flashLite"]

/-- Source `getNextFallbackModel()` (background.js lines 481-500): find the key of
the current model identifier, step one position forward in
`fallbackOrder`, return that key's identifier; `none` once the chain is
exhausted (the source returns `null`/`undefined`).  A key missing from
`fallbackOrder` gives `indexOf = -1`, hence next index 0. -/
def getNextFallbackModel (currentModel : String) : Option String :=
  match GEMINI_models.find? (fun kv => kv.2 == currentModel) with
  | none => none
  | some kv =>
      let nextIndex : Nat :=
        match fallbackOrder.indexOf? kv.1 with
        | some n => n + 1
        | none => 0
      if nextIndex < fallbackOrder.length then
        match fallbackOrder.get? nextIndex with
        | some key => (GEMINI_models.find? (fun kv2 => kv2.1 == key)).map (·.2)
        | none => none
      else none

/-- The model identifiers in fallback-chain order. -/
def tierChain : List String :=
  fallbackOrder.filterMap
    (fun key => (GEMINI_models.find? (fun kv => kv.1 == key)).map (·.2))

/-- Source `analyzeWithGemini(pageData)` (background.js lines 427-478).  The
network is the oracle `call`: given a model identifier it returns the
generated text, or an error message covering both a failed HTTP request and
an empty reply (the source throws either way inside the same `try`).  The
recursion of the source advances `this.currentModel` via
`getNextFallbackModel`; on exhaustion it throws
`All Gemini models failed: <last error>`.  The function is instrumented
with the list of model identifiers attempted, in order, which the source
produces as its sequence of `fetch` calls; `fuel` bounds the recursion and
any value ≥ `tierChain.length` is exact for every start inside the chain. -/
def analyzeWithGemini (call : String → Except String String) (url : String) :
    Nat → String → Except String ScanResult × List String
  | 0, _ => (.error "out of fuel", [])
  | fuel + 1, currentModel =>
    match call currentModel with
    | .ok generatedText => (.ok (parseGeminiResponse currentModel generatedText url), [currentModel])
    | .error e =>
      match getNextFallbackModel currentModel with
      | some next =>
          let r := analyzeWithGemini call url fuel next
          (r.1, currentModel :: r.2)
      | none => (.error ("All Gemini models failed: " ++ e), [currentModel])

/-! ## Verdict banding -/

inductive Verdict where
  | legitimate
  | uncertain
  | phishing
deriving DecidableEq

/-- The banding of `saveToHistory` (background.js lines 696-704); the
popup's `displayResults` (part_001 lines 196-209), the content-script
warning choice (background.js lines 205-221) and `updateBadge`
(lines 665-684) apply the same two-threshold chain. -/
def verdictOf (safeThreshold cautionThreshold score : Int) : Verdict :=
  if score ≥ safeThreshold then .legitimate
  else if score ≥ cautionThreshold then .uncertain
  else .phishing

/-! ## Threshold update handlers (popup, part_001) -/

/-- The pair of live thresholds held by the popup manager. -/
structure Thresholds where
  safeThreshold : Int
  cautionThreshold : Int
deriving DecidableEq

/-- Range clamping performed by the DOM when a value is assigned to the
safe slider (its range attributes are min 70 / max 95, part_002 line 561). -/
def domClampSafe (v : Int) : Int :=
  if v < 70 then 70 else if 95 < v then 95 else v

/-- Range clamping of the caution slider (min 30 / max 70, part_002
line 571). -/
def domClampCaution (v : Int) : Int :=
  if v < 30 then 30 else if 70 < v then 70 else v

/-- Composite `change` behaviour of the safe slider.  `showSettings`
registers a `change` listener on it (part_001 lines 656-674) and then
calls `setupThresholdSliders()` (line 726), which registers a second
`change` listener (lines 971-981) on the same element; every change event
runs both, in registration order, and an exception in the first does not
stop the second.  On a violating value `v ≤ cautionThreshold` the first
listener rewrites `e.target.value` to `cautionThreshold + 10`
(range-clamped by the DOM) and then throws at its `const` reassignment,
saving nothing; the second listener reads the rewritten value, applies its
own guard (reject and keep the stored value if still violating), and saves
it.  On a non-violating `v` both listeners save `v`, the first suspending
at its storage `await` before the second runs, so the stored result is
`v` either way. -/
def safeSliderChange (st : Thresholds) (v : Int) : Thresholds :=
  if v ≤ st.cautionThreshold then
    if domClampSafe (st.cautionThreshold + 10) ≤ st.cautionThreshold then st
    else { st with safeThreshold := domClampSafe (st.cautionThreshold + 10) }
  else { st with safeThreshold := v }

/-- Composite `change` behaviour of the caution slider (listeners at
part_001 lines 676-694 and 983-991), the mirror image of
`safeSliderChange`: a violating `v ≥ safeThreshold` is rewritten to
`safeThreshold - 10` (range-clamped) by the aborting first listener and
then saved by the second, subject to the second listener's own guard. -/
def cautionSliderChange (st : Thresholds) (v : Int) : Thresholds :=
  if v ≥ st.safeThreshold then
    if domClampCaution (st.safeThreshold - 10) ≥ st.safeThreshold then st
    else { st with cautionThreshold := domClampCaution (st.safeThreshold - 10) }
  else { st with cautionThreshold := v }

/-! ## Scan session store (`this.scannedTabs`) and tab events -/

/-- Source `this.scannedTabs`, a `Map` from tab id to latest result, modelled as
an association list with at most one binding per key. -/
abbrev ScanStore := List (Nat × ScanResult)

/-- Source `this.scannedTabs.get(tabId)` (with `has` folded in). -/
def storeGet (st : ScanStore) (tabId : Nat) : Option ScanResult :=
  (List.find? (fun p => p.1 == tabId) st).map (·.2)

/-- Source `this.scannedTabs.set(tabId, result)` (background.js line 198). -/
def storeSet (st : ScanStore) (tabId : Nat) (r : ScanResult) : ScanStore :=
  (tabId, r) :: List.filter (fun p => !(p.1 == tabId)) st

/-- Source `this.scannedTabs.delete(tabId)` (background.js line 176). -/
def storeDelete (st : ScanStore) (tabId : Nat) : ScanStore :=
  List.filter (fun p => !(p.1 == tabId)) st

/-- Source `handleTabUpdated` (background.js lines 174-179): a `tabs.onUpdated`
event whose `changeInfo` carries a `url` — a top-level location change —
deletes the tab's cached result; any other update leaves the store alone.
(The badge calls are presentation, outside the model.) -/
def handleTabUpdated (st : ScanStore) (tabId : Nat) (changeInfoUrl : Option String) :
    ScanStore :=
  if changeInfoUrl.isSome then storeDelete st tabId else st

/-- The store-relevant events of the background worker. -/
inductive TabEvent where
  | navigate (tabId : Nat) (newUrl : String)
  | update (tabId : Nat)
  | scanComplete (tabId : Nat) (r : ScanResult)

/-- One event step on the store: `navigate`/`update` via `handleTabUpdated`
(with and without `changeInfo.url`), `scanComplete` via the `set` in
`scanPage`.  `handleTabActivated` (lines 163-172) only reads the store. -/
def stepEvent (st : ScanStore) : TabEvent → ScanStore
  | .navigate tabId newUrl => handleTabUpdated st tabId (some newUrl)
  | .update tabId => handleTabUpdated st tabId none
  | .scanComplete tabId r => storeSet st tabId r

/-- Whether an event stores a result for the given tab. -/
def storesFor (tabId : Nat) : TabEvent → Bool
  | .scanComplete t _ => t == tabId
  | _ => false

/-! ## URL gating and `scanPage` -/

/-- The scheme list of `isScannableUrl` (background.js lines 641-645). -/
def unscannableSchemes : List String :=
  ["chrome://", "chrome-extension://",
   "about:", "file://", "data:", "javascript:", "mailto:",
   "tel:", "ftp://", "chrome-search://", "chrome-devtools://"]

/-- Source `isScannableUrl(url)` (background.js lines 638-649).  `none` covers a
missing or non-string argument (`!url || typeof url !== 'string'`); the
empty string is falsy and equally rejected; otherwise the lowercased URL
must not start with any restricted scheme. -/
def isScannableUrl : Option String → Bool
  | none => false
  | some url =>
      if url == "" then false
      else !(unscannableSchemes.any (fun scheme => startsWithStr (strToLower url) scheme))

/-- JavaScript falsiness of `this.geminiApiKey` (`!this.geminiApiKey`):
unset (`null`) or the empty string. -/
def jsFalsyKey : Option String → Bool
  | none => true
  | some k => k == ""

/-- Source `scanPage(tabId, url, scanSource)` (background.js lines 181-228),
reduced to the pipeline the claims are about.  `geminiApiKey` is the key
after `loadSettings` (`none` or `""` is falsy); `getContent` is the page
extraction oracle, returning the page's full URL — the only part of the
extracted page data the downstream pipeline consumes in this model (the
prompt text built from the rest is absorbed into the `call` oracle);
`call` and `startModel` feed `analyzeWithGemini`.  The store is threaded
explicitly: it is written only on success; notification, badge and history
side effects are presentation, outside the model. -/
def scanPage (geminiApiKey : Option String) (url : Option String) (tabId : Nat)
    (st : ScanStore) (getContent : Except String String)
    (call : String → Except String String) (startModel : String) :
    Except String ScanResult × ScanStore :=
  if jsFalsyKey geminiApiKey then
    (.error "API key not configured", st)
  else if !(isScannableUrl url) then
    (.error "Cannot scan this type of page", st)
  else
    match getContent with
    | .error e => (.error ("Failed to extract page content: " ++ e), st)
    | .ok fullUrl =>
        match (analyzeWithGemini call fullUrl tierChain.length startModel).1 with
        | .error e => (.error e, st)
        | .ok r => (.ok r, storeSet st tabId r)

/-- Oracle for the C4 scenario: transport failure on the first two tiers,
a successful structured reply on the third. -/
def geminiCallFailAB : String → Except String String := fun m =>
  if m == "gemini-2.5-flash-lite" then
    .ok "\x7b\"legitimacyScore\": 90, \"reasoning\": [\"ok\"]\x7d"
  else .error "network error"

/-- Oracle for the C4 exhaustion scenario: every tier fails, with a
distinguishable message per tier. -/
def geminiCallAllFail : String → Except String String := fun m =>
  .error ("network error on " ++ m)

/-- An arbitrary concrete result used by the C6 witness. -/
def exampleResult : ScanResult :=
  { legitimacyScore := some 90
    reasoning := [.str "ok"]
    url := "https://example.com"
    fallback := false
    modelUsed := some "gemini-2.5-flash-lite" }

/-! ## Helper lemmas -/

lemma getNext_pro : getNextFallbackModel "gemini-2.5-pro" = some "gemini-2.5-flash" := rfl

lemma getNext_flash :
    getNextFallbackModel "gemini-2.5-flash" = some "gemini-2.5-flash-lite" := rfl

lemma getNext_flashLite : getNextFallbackModel "gemini-2.5-flash-lite" = none := rfl

lemma tierChain_eq :
    tierChain = ["gemini-2.5-pro", "gemini-2.5-flash", "gemini-2.5-flash-lite"] := rfl

lemma storeGet_eq_none_iff (st : ScanStore) (t : Nat) :
    storeGet st t = none ↔ ∀ p ∈ st, p.1 ≠ t := by
  unfold storeGet
  rw [Option.map_eq_none', List.find?_eq_none]
  simp

lemma storeGet_storeSet (st : ScanStore) (t : Nat) (r : ScanResult) :
    storeGet (storeSet st t r) t = some r := by
  simp [storeGet, storeSet, List.find?_cons]

lemma absence_preserved (st : ScanStore) (t : Nat) (e : TabEvent)
    (h : storeGet st t = none) (he : storesFor t e = false) :
    storeGet (stepEvent st e) t = none := by
  cases e with
  | navigate t2 u =>
      simp only [stepEvent, handleTabUpdated, Option.isSome_some, if_true, storeDelete]
      rw [storeGet_eq_none_iff] at h ⊢
      intro p hp
      exact h p (List.mem_of_mem_filter hp)
  | update t2 =>
      simpa [stepEvent, handleTabUpdated] using h
  | scanComplete t2 r =>
      have ht : t2 ≠ t := by simpa [storesFor] using he
      simp only [stepEvent, storeSet]
      rw [storeGet_eq_none_iff] at h ⊢
      intro p hp
      rcases List.mem_cons.mp hp with rfl | hp2
      · exact ht
      · exact h p (List.mem_of_mem_filter hp2)

lemma absence_preserved_foldl (t : Nat) :
    ∀ (evs : List TabEvent) (st : ScanStore), storeGet st t = none →
      (∀ e ∈ evs, storesFor t e = false) →
      storeGet (evs.foldl stepEvent st) t = none
  | [], _, h, _ => h
  | e :: evs, st, h, hall => by
      apply absence_preserved_foldl t evs
      · exact absence_preserved st t e h (hall e (by simp))
      · intro e2 he2
        exact hall e2 (by simp [he2])

/-! ## Claims -/

/-- C1.  For every integer score in [0,100] and every valid threshold
configuration (ranges as in the popup sliders, safe strictly above
caution), the banding of `saveToHistory` / `displayResults` assigns exactly
one band: Legitimate iff `safeThreshold ≤ score`, Uncertain iff
`cautionThreshold ≤ score < safeThreshold`, Phishing iff
`score < cautionThreshold` — a total, non-overlapping partition. -/
theorem verdict_banding_partition (safe caution s : Int)
    (h70 : 70 ≤ safe) (h95 : safe ≤ 95) (h30 : 30 ≤ caution) (h70c : caution ≤ 70)
    (hlt : caution < safe) (h0 : 0 ≤ s) (h100 : s ≤ 100) :
    (verdictOf safe caution s = .legitimate ↔ safe ≤ s) ∧
    (verdictOf safe caution s = .uncertain ↔ caution ≤ s ∧ s < safe) ∧
    (verdictOf safe caution s = .phishing ↔ s < caution) := by
  unfold verdictOf
  split_ifs with h1 h2 <;> simp <;> omega

/-- Witness for C1 at the default configuration 80/50 and score 60. -/
theorem verdict_banding_partition_witness :
    (verdictOf 80 50 60 = .legitimate ↔ (80 : Int) ≤ 60) ∧
    (verdictOf 80 50 60 = .uncertain ↔ (50 : Int) ≤ 60 ∧ (60 : Int) < 80) ∧
    (verdictOf 80 50 60 = .phishing ↔ (60 : Int) < 50) :=
  verdict_banding_partition 80 50 60 (by decide) (by decide) (by decide) (by decide)
    (by decide) (by decide) (by decide)

/-- C2.  Evaluation of the parser at the failing input: a reply whose
`legitimacyScore` is the present, numeric value 0 is parsed on the
structured path (no fallback), yet its score comes out as 50 —
`parsed.legitimacyScore || 50` treats the number 0 as absent.  The claim
(and the prompt's own rubric, which makes 0-39 meaningful scores) requires
clamping to preserve 0. -/
theorem score_zero_coerced_to_default :
    (parseGeminiResponse "gemini-2.5-flash-lite"
        "\x7b\"legitimacyScore\": 0, \"reasoning\": [\"Fake login page\"]\x7d"
        "https://fake.example.com").legitimacyScore = some 50 ∧
    (parseGeminiResponse "gemini-2.5-flash-lite"
        "\x7b\"legitimacyScore\": 0, \"reasoning\": [\"Fake login page\"]\x7d"
        "https://fake.example.com").fallback = false :=
  ⟨rfl, rfl⟩

/-- C3.  A reply whose cleaned text contains no brace-delimited JSON
candidate goes to the fallback classifier, which marks the result and
scores it by the case-insensitive lexical rule: 25 on risk vocabulary,
else 65 on trust vocabulary, else 50. -/
theorem fallback_lexical_classification (cur s url : String)
    (h : jsonSlice (cleanResponse s) = none) :
    parseGeminiResponse cur s url = fallbackAnalysis cur url s ∧
    (fallbackAnalysis cur url s).fallback = true ∧
    (fallbackAnalysis cur url s).legitimacyScore =
      some (if containsSub (strToLower s) "phishing" || containsSub (strToLower s) "suspicious"
              || containsSub (strToLower s) "malicious" then 25
            else if containsSub (strToLower s) "legitimate" || containsSub (strToLower s) "safe"
              || containsSub (strToLower s) "trusted" then 65
            else 50) := by
  refine ⟨?_, ?_, ?_⟩
  · unfold parseGeminiResponse tryStructured
    rw [h]
    rfl
  · unfold fallbackAnalysis
    split_ifs <;> rfl
  · unfold fallbackAnalysis
    split_ifs <;> rfl

/-- Witness for C3 at the spec's example reply. -/
theorem fallback_lexical_classification_witness :
    jsonSlice (cleanResponse "no json here") = none ∧
    (parseGeminiResponse "gemini-2.5-pro" "no json here" "https://example.com" =
        fallbackAnalysis "gemini-2.5-pro" "https://example.com" "no json here" ∧
      (fallbackAnalysis "gemini-2.5-pro" "https://example.com" "no json here").fallback = true ∧
      (fallbackAnalysis "gemini-2.5-pro" "https://example.com" "no json here").legitimacyScore =
        some (if containsSub (strToLower "no json here") "phishing"
                || containsSub (strToLower "no json here") "suspicious"
                || containsSub (strToLower "no json here") "malicious" then 25
              else if containsSub (strToLower "no json here") "legitimate"
                || containsSub (strToLower "no json here") "safe"
                || containsSub (strToLower "no json here") "trusted" then 65
              else 50)) :=
  ⟨rfl, fallback_lexical_classification "gemini-2.5-pro" "no json here"
    "https://example.com" rfl⟩

/-- C4.  Tier fallback: for every network oracle and every start tier in
the chain, the sequence of models attempted is a non-empty prefix of the
chain's suffix starting at that tier (strictly in order, each tier at most
once, at most `length - 1` advances); with failures on the first two tiers
the result's model is the third; with failures everywhere the scan fails
with the all-tiers-exhausted error carrying the last tier's error. -/
theorem tier_fallback_order :
    (∀ (call : String → Except String String) (url m : String), m ∈ tierChain →
      ∃ k, 1 ≤ k ∧ k ≤ tierChain.length ∧
        (analyzeWithGemini call url tierChain.length m).2 =
          (tierChain.dropWhile (fun x => !(x == m))).take k) ∧
    (analyzeWithGemini geminiCallFailAB "https://example.com" tierChain.length
        "gemini-2.5-pro").1.map (fun r => r.modelUsed) =
      .ok (some "gemini-2.5-flash-lite") ∧
    (analyzeWithGemini geminiCallAllFail "https://example.com" tierChain.length
        "gemini-2.5-pro").1 =
      .error "All Gemini models failed: network error on gemini-2.5-flash-lite" := by
  refine ⟨?_, rfl, rfl⟩
  intro call url m hm
  rw [tierChain_eq] at hm
  simp only [List.mem_cons, List.not_mem_nil, or_false] at hm
  rcases hm with rfl | rfl | rfl
  · cases h1 : call "gemini-2.5-pro" with
    | ok t1 =>
        exact ⟨1, by omega, by simp [tierChain_eq], by
          simp [analyzeWithGemini, tierChain_eq, h1]⟩
    | error e1 =>
        cases h2 : call "gemini-2.5-flash" with
        | ok t2 =>
            exact ⟨2, by omega, by simp [tierChain_eq], by
              simp [analyzeWithGemini, tierChain_eq, h1, h2, getNext_pro]⟩
        | error e2 =>
            cases h3 : call "gemini-2.5-flash-lite" with
            | ok t3 =>
                exact ⟨3, by omega, by simp [tierChain_eq], by
                  simp [analyzeWithGemini, tierChain_eq, h1, h2, h3,
                    getNext_pro, getNext_flash]⟩
            | error e3 =>
                exact ⟨3, by omega, by simp [tierChain_eq], by
                  simp [analyzeWithGemini, tierChain_eq, h1, h2, h3,
                    getNext_pro, getNext_flash, getNext_flashLite]⟩
  · cases h2 : call "gemini-2.5-flash" with
    | ok t2 =>
        exact ⟨1, by omega, by simp [tierChain_eq], by
          simp [analyzeWithGemini, tierChain_eq, h2]⟩
    | error e2 =>
        cases h3 : call "gemini-2.5-flash-lite" with
        | ok t3 =>
            exact ⟨2, by omega, by simp [tierChain_eq], by
              simp [analyzeWithGemini, tierChain_eq, h2, h3, getNext_flash]⟩
        | error e3 =>
            exact ⟨2, by omega, by simp [tierChain_eq], by
              simp [analyzeWithGemini, tierChain_eq, h2, h3,
                getNext_flash, getNext_flashLite]⟩
  · cases h3 : call "gemini-2.5-flash-lite" with
    | ok t3 =>
        exact ⟨1, by omega, by simp [tierChain_eq], by
          simp [analyzeWithGemini, tierChain_eq, h3]⟩
    | error e3 =>
        exact ⟨1, by omega, by simp [tierChain_eq], by
          simp [analyzeWithGemini, tierChain_eq, h3, getNext_flashLite]⟩

/-- Witness for C4's universal part at a concrete failing oracle and the
first tier. -/
theorem tier_fallback_order_witness :
    "gemini-2.5-pro" ∈ tierChain ∧
    ∃ k, 1 ≤ k ∧ k ≤ tierChain.length ∧
      (analyzeWithGemini geminiCallAllFail "https://example.com" tierChain.length
          "gemini-2.5-pro").2 =
        (tierChain.dropWhile (fun x => !(x == "gemini-2.5-pro"))).take k :=
  ⟨by rw [tierChain_eq]; simp,
   tier_fallback_order.1 geminiCallAllFail "https://example.com" "gemini-2.5-pro"
    (by rw [tierChain_eq]; simp)⟩

/-- C5 counterexample.  A non-violating update is saved with no minimum
separation: from the valid stored pair safe 80 / caution 65 (separation
15), moving the safe slider to 70 — inside the slider's own range — passes
both listeners' guards unchanged and is stored, leaving the pair 70/65
with separation 5, refuting the claimed 10-point minimum after every
update. -/
theorem threshold_update_counterexample :
    safeSliderChange ⟨80, 65⟩ 70 = ⟨70, 65⟩ ∧
    ¬ ((70 : Int) - 65 ≥ 10) :=
  ⟨rfl, by decide⟩

/-- C5 amended.  Under the sliders' DOM ranges (stored safe ≥ 70, stored
caution ≤ 70), every change event on either slider keeps
`safeThreshold > cautionThreshold` — the pair is never left inverted — and
an update that would violate the invariant is corrected by the clamp the
two listeners produce together, restoring at least 10 points of
separation (so the spec example, safe set to 55 against caution 60, stores
safe 70).  An accepted non-violating update, however, only has to clear
the other threshold strictly, so no 10-point minimum separation holds
after every update. -/
theorem threshold_handlers_never_invert (S C v w : Int)
    (h : C < S) (hS : 70 ≤ S) (hC : C ≤ 70) :
    ((safeSliderChange ⟨S, C⟩ v).cautionThreshold <
      (safeSliderChange ⟨S, C⟩ v).safeThreshold) ∧
    ((cautionSliderChange ⟨S, C⟩ w).cautionThreshold <
      (cautionSliderChange ⟨S, C⟩ w).safeThreshold) ∧
    (v ≤ C →
      (safeSliderChange ⟨S, C⟩ v).safeThreshold -
        (safeSliderChange ⟨S, C⟩ v).cautionThreshold ≥ 10) ∧
    (S ≤ w →
      (cautionSliderChange ⟨S, C⟩ w).safeThreshold -
        (cautionSliderChange ⟨S, C⟩ w).cautionThreshold ≥ 10) := by
  refine ⟨?_, ?_, fun hv => ?_, fun hw => ?_⟩ <;>
    simp only [safeSliderChange, cautionSliderChange, domClampSafe, domClampCaution] <;>
    split_ifs <;>
    simp only [] <;>
    omega

/-- Witness for C5's amended theorem at the spec's own example: stored
pair 80/60, safe slider set to the violating 55 (stored result: safe 70),
caution slider set to the violating 85 (stored result: caution 70). -/
theorem threshold_handlers_never_invert_witness :
    safeSliderChange ⟨80, 60⟩ 55 = ⟨70, 60⟩ ∧
    ((60 : Int) < 80 ∧ (70 : Int) ≤ 80 ∧ (60 : Int) ≤ 70) ∧
    (((safeSliderChange ⟨80, 60⟩ 55).cautionThreshold <
        (safeSliderChange ⟨80, 60⟩ 55).safeThreshold) ∧
      ((cautionSliderChange ⟨80, 60⟩ 85).cautionThreshold <
        (cautionSliderChange ⟨80, 60⟩ 85).safeThreshold) ∧
      ((55 : Int) ≤ 60 →
        (safeSliderChange ⟨80, 60⟩ 55).safeThreshold -
          (safeSliderChange ⟨80, 60⟩ 55).cautionThreshold ≥ 10) ∧
      ((80 : Int) ≤ 85 →
        (cautionSliderChange ⟨80, 60⟩ 85).safeThreshold -
          (cautionSliderChange ⟨80, 60⟩ 85).cautionThreshold ≥ 10)) :=
  ⟨rfl, ⟨by decide, by decide, by decide⟩,
   threshold_handlers_never_invert 80 60 55 85 (by decide) (by decide) (by decide)⟩

/-- C6.  A navigation event on a tab removes its cached result; the entry
stays absent across any further events that do not complete a scan for
that tab; and a completed scan stores the fresh result, after which `get`
returns it. -/
theorem navigation_invalidates_session (st : ScanStore) (tabId : Nat) (newUrl : String) :
    storeGet (stepEvent st (.navigate tabId newUrl)) tabId = none ∧
    (∀ evs : List TabEvent, (∀ e ∈ evs, storesFor tabId e = false) →
      storeGet (evs.foldl stepEvent (stepEvent st (.navigate tabId newUrl))) tabId = none) ∧
    (∀ (st2 : ScanStore) (r : ScanResult),
      storeGet (stepEvent st2 (.scanComplete tabId r)) tabId = some r) := by
  have hdel : storeGet (stepEvent st (.navigate tabId newUrl)) tabId = none := by
    simp only [stepEvent, handleTabUpdated, Option.isSome_some, if_true, storeDelete]
    rw [storeGet_eq_none_iff]
    intro p hp
    have := List.of_mem_filter hp
    simpa using this
  refine ⟨hdel, ?_, ?_⟩
  · intro evs hall
    exact absence_preserved_foldl tabId evs _ hdel hall
  · intro st2 r
    simpa [stepEvent] using storeGet_storeSet st2 tabId r

/-- Witness for C6 at a one-entry store and a two-event suffix. -/
theorem navigation_invalidates_session_witness :
    storeGet (stepEvent [(1, exampleResult)] (.navigate 1 "https://new.example")) 1 = none ∧
    storeGet ([TabEvent.update 1, TabEvent.navigate 2 "https://x.example",
        TabEvent.scanComplete 2 exampleResult].foldl stepEvent
      (stepEvent [(1, exampleResult)] (.navigate 1 "https://new.example"))) 1 = none ∧
    storeGet (stepEvent [] (.scanComplete 1 exampleResult)) 1 = some exampleResult :=
  ⟨(navigation_invalidates_session [(1, exampleResult)] 1 "https://new.example").1,
   (navigation_invalidates_session [(1, exampleResult)] 1 "https://new.example").2.1
     [TabEvent.update 1, TabEvent.navigate 2 "https://x.example",
      TabEvent.scanComplete 2 exampleResult]
     (by
       intro e he
       simp only [List.mem_cons, List.not_mem_nil, or_false] at he
       rcases he with rfl | rfl | rfl <;> rfl),
   (navigation_invalidates_session [(1, exampleResult)] 1 "https://new.example").2.2
     [] exampleResult⟩

/-- C7.  Round-trip: the serialization of
`\x7blegitimacyScore: 72, reasoning: ["a","b"]\x7d` parses back to a
result with score 72, reasoning `["a","b"]` and no fallback flag. -/
theorem response_round_trip :
    (parseGeminiResponse "gemini-2.5-flash-lite"
        "\x7b\"legitimacyScore\":72,\"reasoning\":[\"a\",\"b\"]\x7d"
        "https://example.com").legitimacyScore = some 72 ∧
    (parseGeminiResponse "gemini-2.5-flash-lite"
        "\x7b\"legitimacyScore\":72,\"reasoning\":[\"a\",\"b\"]\x7d"
        "https://example.com").reasoning = [.str "a", .str "b"] ∧
    (parseGeminiResponse "gemini-2.5-flash-lite"
        "\x7b\"legitimacyScore\":72,\"reasoning\":[\"a\",\"b\"]\x7d"
        "https://example.com").fallback = false :=
  ⟨rfl, rfl, rfl⟩

/-- C8 counterexample: a fallback-produced result carries a present
`modelUsed` — the tier whose reply failed to parse — contradicting the
claim that the field is absent for fallback results. -/
theorem fallback_result_model_tier_present :
    (fallbackAnalysis "gemini-2.5-pro" "https://example.com" "plain text").fallback = true ∧
    (fallbackAnalysis "gemini-2.5-pro" "https://example.com" "plain text").modelUsed =
      some "gemini-2.5-pro" :=
  ⟨rfl, rfl⟩

/-- C8 amended.  Every fallback-produced result carries
`modelUsed = some currentModel`; `usedFallbackClassifier`, not the absence
of the tier field, is what distinguishes fallback results. -/
theorem fallback_result_model_tier (currentModel url responseText : String) :
    (fallbackAnalysis currentModel url responseText).modelUsed = some currentModel ∧
    (fallbackAnalysis currentModel url responseText).fallback = true := by
  unfold fallbackAnalysis
  split_ifs <;> exact ⟨rfl, rfl⟩

/-- C9.  The parser/fallback stage is total: whenever the structured parse
fails — no JSON candidate, or a throwing `JSON.parse` — the reply is routed
to the fallback classifier and a marked result with a definite coarse
score is still produced; no parse failure escapes to the caller. -/
theorem parse_failure_recovered (cur s url : String)
    (h : tryStructured s = none) :
    parseGeminiResponse cur s url = fallbackAnalysis cur url s ∧
    (parseGeminiResponse cur s url).fallback = true ∧
    ((parseGeminiResponse cur s url).legitimacyScore = some 25 ∨
     (parseGeminiResponse cur s url).legitimacyScore = some 50 ∨
     (parseGeminiResponse cur s url).legitimacyScore = some 65) := by
  have heq : parseGeminiResponse cur s url = fallbackAnalysis cur url s := by
    unfold parseGeminiResponse
    rw [h]
  refine ⟨heq, ?_, ?_⟩
  · rw [heq]
    unfold fallbackAnalysis
    split_ifs <;> rfl
  · rw [heq]
    unfold fallbackAnalysis
    split_ifs <;> simp

/-- Witness for C9 at a reply whose brace slice is not valid JSON. -/
theorem parse_failure_recovered_witness :
    tryStructured "\x7bbad json\x7d" = none ∧
    (parseGeminiResponse "gemini-2.5-pro" "\x7bbad json\x7d" "https://example.com" =
        fallbackAnalysis "gemini-2.5-pro" "https://example.com" "\x7bbad json\x7d" ∧
      (parseGeminiResponse "gemini-2.5-pro" "\x7bbad json\x7d"
          "https://example.com").fallback = true ∧
      ((parseGeminiResponse "gemini-2.5-pro" "\x7bbad json\x7d"
          "https://example.com").legitimacyScore = some 25 ∨
       (parseGeminiResponse "gemini-2.5-pro" "\x7bbad json\x7d"
          "https://example.com").legitimacyScore = some 50 ∨
       (parseGeminiResponse "gemini-2.5-pro" "\x7bbad json\x7d"
          "https://example.com").legitimacyScore = some 65)) :=
  ⟨rfl, parse_failure_recovered "gemini-2.5-pro" "\x7bbad json\x7d"
    "https://example.com" rfl⟩

/-- C10.  With a configured API key, a missing URL or one whose lowercased
form starts with a restricted scheme makes `scanPage` fail with the
page-not-scannable error, for every extraction and network oracle — so
before any extraction or network call — and with the session store
returned unchanged. -/
theorem unscannable_url_rejected (key : String) (url : Option String) (tabId : Nat)
    (st : ScanStore) (getContent : Except String String)
    (call : String → Except String String) (startModel : String)
    (hkey : key ≠ "")
    (hurl : url = none ∨ ∃ s, url = some s ∧
      unscannableSchemes.any (fun scheme => startsWithStr (strToLower s) scheme) = true) :
    scanPage (some key) url tabId st getContent call startModel =
      (.error "Cannot scan this type of page", st) := by
  have hk : jsFalsyKey (some key) = false := by
    simp [jsFalsyKey, hkey]
  have hu : isScannableUrl url = false := by
    rcases hurl with rfl | ⟨s, rfl, ha⟩
    · rfl
    · simp [isScannableUrl, ha]
  unfold scanPage
  rw [hk, hu]
  simp

/-- Witness for C10 at a restricted chrome scheme. -/
theorem unscannable_url_rejected_witness :
    ("k" : String) ≠ "" ∧
    scanPage (some "k") (some "chrome://settings") 7 [] (.ok "https://example.com")
        (fun _ => .error "x") "gemini-2.5-pro" =
      (.error "Cannot scan this type of page", []) :=
  ⟨by decide,
   unscannable_url_rejected "k" (some "chrome://settings") 7 [] (.ok "https://example.com")
     (fun _ => .error "x") "gemini-2.5-pro" (by decide)
     (Or.inr ⟨"chrome://settings", rfl, rfl⟩)⟩

end PhishGuard
